import Mathlib

/-!
Shallow embedding of the ResuMate PDF-to-image conversion flow.

The embedded code is `convertPdfToImage` and `loadPdfJs` from the
pdf-conversion module, together with the dropzone configuration of
`FileUploader.tsx`.  External collaborators (the pdf.js library, the
canvas, the dropzone library) are modelled as oracles: the environment
records the outcome each external step would produce, and the embedded
functions reproduce the control flow of the source around those outcomes.
-/

namespace ResuMate

/-- Character-list prefix test: the second list is a prefix of the first. -/
def charsStartWith : List Char → List Char → Bool
  | _, [] => true
  | [], _ :: _ => false
  | c :: cs, p :: ps => c == p && charsStartWith cs ps

/-- Character-list substring test: the second list occurs contiguously in
the first. -/
def charsContain (s pat : List Char) : Bool :=
  match s with
  | [] => pat.isEmpty
  | _ :: t => charsStartWith s pat || charsContain t pat

/-- Character-list suffix test: the second list is a suffix of the first. -/
def charsEndWith (s pat : List Char) : Bool :=
  charsStartWith s.reverse pat.reverse

/-- A JS string-includes test: true when the pattern occurs as a contiguous
substring (case-sensitive), mirroring String.prototype.includes. -/
def jsIncludes (s pat : String) : Bool :=
  charsContain s.data pat.data

/-- ASCII lower-casing of one code point, as toLowerCase acts on the
characters the embedded checks care about. -/
def asciiToLower (c : Char) : Char :=
  if 65 ≤ c.toNat && c.toNat ≤ 90 then Char.ofNat (c.toNat + 32) else c

/-- A JS toLowerCase over the code points of the string. -/
def jsToLower (s : String) : String :=
  String.mk (s.data.map asciiToLower)

/-- The test file.name.toLowerCase().endsWith(".pdf") from the source. -/
def endsWithPdf (name : String) : Bool :=
  charsEndWith (jsToLower name).data ".pdf".data

/-! ## Library loader state machine (loadPdfJs) -/

/-- The module-level mutable state of the loader: the memoized pdfjsLib
handle and the loadPromise slot, plus ghost fields recording how many
dynamic imports were started and which import promises have rejected.
Promises are identified by the number of the import that created them. -/
structure LoaderState where
  pdfjsLib : Option Nat
  loadPromise : Option Nat
  importsStarted : Nat
  failedPromises : List Nat
deriving DecidableEq

/-- What a single invocation of loadPdfJs does, as observed by its caller. -/
inductive LoadAction where
  /-- The memoized handle was returned immediately. -/
  | returnHandle (lib : Nat)
  /-- The existing loadPromise was returned, whatever its state. -/
  | returnPromise (p : Nat)
  /-- A new dynamic import was begun and its promise stored and returned. -/
  | startImport (p : Nat)
  /-- The import call threw synchronously and loadPdfJs rethrew a load error. -/
  | threw
deriving DecidableEq

/-- The initial module state: both slots null, nothing started. -/
def loaderInit : LoaderState := ⟨none, none, 0, []⟩

/-- One invocation of loadPdfJs.  Mirrors the source: return pdfjsLib if
set; else return loadPromise if set; else start the import (the flag
models the import expression itself throwing synchronously, in which case
the catch block rethrows and loadPromise is left unset). -/
def loadPdfJs (s : LoaderState) (importThrowsSync : Bool) :
    LoaderState × LoadAction :=
  match s.pdfjsLib with
  | some lib => (s, LoadAction.returnHandle lib)
  | none =>
    match s.loadPromise with
    | some p => (s, LoadAction.returnPromise p)
    | none =>
      if importThrowsSync then
        (s, LoadAction.threw)
      else
        ({ s with loadPromise := some s.importsStarted,
                  importsStarted := s.importsStarted + 1 },
         LoadAction.startImport s.importsStarted)

/-- Events of a process run: an invocation of loadPdfJs, the import promise
fulfilling (the then-handler stores the library in pdfjsLib), or the import
promise rejecting (the source installs no rejection handler, so nothing in
the module state is reset). -/
inductive LoaderEvent where
  | call (importThrowsSync : Bool)
  | resolve (lib : Nat)
  | reject
deriving DecidableEq

/-- Transition of the module state under one event. -/
def loaderStep (s : LoaderState) : LoaderEvent → LoaderState
  | LoaderEvent.call b => (loadPdfJs s b).1
  | LoaderEvent.resolve lib =>
    match s.loadPromise with
    | some _ => { s with pdfjsLib := some lib }
    | none => s
  | LoaderEvent.reject =>
    match s.loadPromise with
    | some p => { s with failedPromises := p :: s.failedPromises }
    | none => s

/-- The module state after a sequence of events from process start. -/
def loaderRun (evs : List LoaderEvent) : LoaderState :=
  evs.foldl loaderStep loaderInit

/-- Invariant tying the import counter to the promise slot. -/
def LoaderInv (s : LoaderState) : Prop :=
  s.importsStarted ≤ 1 ∧ (s.loadPromise = none → s.importsStarted = 0)

lemma loaderInv_init : LoaderInv loaderInit := by
  constructor <;> simp [loaderInit]

lemma loaderInv_step (s : LoaderState) (hs : LoaderInv s) (e : LoaderEvent) :
    LoaderInv (loaderStep s e) := by
  obtain ⟨lib, lp, n, fp⟩ := s
  obtain ⟨h1, h2⟩ := hs
  cases e with
  | call b =>
    cases lib with
    | some l => exact ⟨h1, h2⟩
    | none =>
      cases lp with
      | some p => exact ⟨h1, h2⟩
      | none =>
        cases b with
        | true => exact ⟨h1, h2⟩
        | false =>
          have hn : n = 0 := h2 rfl
          refine ⟨?_, ?_⟩
          · show n + 1 ≤ 1
            omega
          · intro h
            exact absurd h (by simp [loaderStep, loadPdfJs])
  | resolve l =>
    cases lp with
    | some p => exact ⟨h1, h2⟩
    | none => exact ⟨h1, h2⟩
  | reject =>
    cases lp with
    | some p => exact ⟨h1, h2⟩
    | none => exact ⟨h1, h2⟩

lemma loaderInv_run (evs : List LoaderEvent) : LoaderInv (loaderRun evs) := by
  suffices h : ∀ s, LoaderInv s → LoaderInv (evs.foldl loaderStep s) from
    h loaderInit loaderInv_init
  induction evs with
  | nil => intro s hs; exact hs
  | cons e t ih => intro s hs; exact ih _ (loaderInv_step s hs e)

/-- C4: across any sequence of loadPdfJs invocations in one process at most
one underlying library import is ever started; three first-time callers still
trigger exactly one import; a call finding the memoized handle returns it with
no new import; and a call finding a load promise in flight returns that same
promise unchanged. -/
theorem loadPdfJs_at_most_one_import :
    (∀ evs : List LoaderEvent, (loaderRun evs).importsStarted ≤ 1)
    ∧ (loaderRun [LoaderEvent.call false, LoaderEvent.call false,
        LoaderEvent.call false]).importsStarted = 1
    ∧ (∀ (s : LoaderState) (lib : Nat) (b : Bool),
        s.pdfjsLib = some lib → loadPdfJs s b = (s, LoadAction.returnHandle lib))
    ∧ (∀ (s : LoaderState) (p : Nat) (b : Bool),
        s.pdfjsLib = none → s.loadPromise = some p →
        loadPdfJs s b = (s, LoadAction.returnPromise p)) := by
  refine ⟨fun evs => (loaderInv_run evs).1, by decide, ?_, ?_⟩
  · intro s lib b h
    obtain ⟨l, lp, n, fp⟩ := s
    cases l with
    | none => exact Option.noConfusion h
    | some x =>
      have hx : x = lib := Option.some.inj h
      subst hx
      rfl
  · intro s p b h1 h2
    obtain ⟨l, lp, n, fp⟩ := s
    cases l with
    | some x => exact Option.noConfusion h1
    | none =>
      cases lp with
      | none => exact Option.noConfusion h2
      | some q =>
        have hq : q = p := Option.some.inj h2
        subst hq
        rfl

/-- C3 counterexample: run the loader with one call (which starts the import)
followed by the import rejecting.  The rejected promise number 0 is recorded
as failed, yet the next call returns that same promise instead of starting a
fresh load, and the import count stays at 1. -/
theorem load_failure_retry_cex :
    (loaderRun [LoaderEvent.call false, LoaderEvent.reject]).failedPromises = [0]
    ∧ loadPdfJs (loaderRun [LoaderEvent.call false, LoaderEvent.reject]) false
        = (loaderRun [LoaderEvent.call false, LoaderEvent.reject],
           LoadAction.returnPromise 0)
    ∧ (loadPdfJs (loaderRun [LoaderEvent.call false, LoaderEvent.reject])
        false).1.importsStarted = 1 := by
  decide

/-- C3 (amended): a rejected import stays cached.  In any state where the
handle is unset and a promise is stored, even one whose import has already
rejected, loadPdfJs returns that same promise and starts no new import; only
a synchronous throw from the import expression leaves loadPromise unset so
that a later call may retry. -/
theorem load_failure_cached (s : LoaderState) (p : Nat) (b : Bool)
    (hlib : s.pdfjsLib = none) (hlp : s.loadPromise = some p)
    (hfail : p ∈ s.failedPromises) :
    loadPdfJs s b = (s, LoadAction.returnPromise p)
    ∧ (loadPdfJs s b).1.importsStarted = s.importsStarted
    ∧ (∀ t : LoaderState, t.pdfjsLib = none → t.loadPromise = none →
        loadPdfJs t true = (t, LoadAction.threw)) := by
  have hmain : loadPdfJs s b = (s, LoadAction.returnPromise p) := by
    obtain ⟨l, lp, n, fp⟩ := s
    cases l with
    | some x => exact Option.noConfusion hlib
    | none =>
      cases lp with
      | none => exact Option.noConfusion hlp
      | some q =>
        have hq : q = p := Option.some.inj hlp
        subst hq
        rfl
  refine ⟨hmain, by rw [hmain], ?_⟩
  intro t ht1 ht2
  obtain ⟨l, lp, n, fp⟩ := t
  cases l with
  | some x => exact Option.noConfusion ht1
  | none =>
    cases lp with
    | some q => exact Option.noConfusion ht2
    | none => rfl

/-- Witness for the amended C3 at the concrete state reached after a first
call and a rejection: the stored failed promise 0 is handed back unchanged. -/
theorem load_failure_cached_witness :
    loadPdfJs ⟨none, some 0, 1, [0]⟩ false
        = (⟨none, some 0, 1, [0]⟩, LoadAction.returnPromise 0)
    ∧ (loadPdfJs ⟨none, some 0, 1, [0]⟩ false).1.importsStarted
        = LoaderState.importsStarted ⟨none, some 0, 1, [0]⟩
    ∧ (∀ t : LoaderState, t.pdfjsLib = none → t.loadPromise = none →
        loadPdfJs t true = (t, LoadAction.threw)) :=
  load_failure_cached ⟨none, some 0, 1, [0]⟩ 0 false rfl rfl (by decide)

/-! ## The conversion routine (convertPdfToImage) -/

/-- The caller-visible data of the input File: name, declared media type and
byte size.  The raw bytes are opaque; what the rendering library would do
with them is recorded in the environment oracle below. -/
structure JsFile where
  name : String
  type : String
  size : Nat
deriving DecidableEq

/-- A value caught by the catch block: either an Error object carrying its
message, or any other thrown value carrying its string coercion.  Either way
the source ends up with a message string, so the initial value
"Failed to convert PDF" of errorMessage is overwritten in both branches. -/
inductive CaughtValue where
  | errObj (message : String)
  | nonError (stringRep : String)
deriving DecidableEq

/-- The errorMessage string the catch block extracts from the caught value. -/
def messageOf : CaughtValue → String
  | CaughtValue.errObj m => m
  | CaughtValue.nonError s => s

/-- The layered substring classifier at the end of the catch block. -/
def classifyMessage (errorMessage : String) : String :=
  if jsIncludes errorMessage "Invalid PDF" then
    "The uploaded file appears to be corrupted or is not a valid PDF."
  else if jsIncludes errorMessage "password" then
    "Password-protected PDFs are not supported."
  else if jsIncludes errorMessage "worker" then
    "PDF processing worker failed to load. Please try again."
  else errorMessage

/-- The output File packaged on success. -/
structure OutFile where
  name : String
  type : String
deriving DecidableEq

/-- The result value of convertPdfToImage. -/
structure PdfConversionResult where
  imageUrl : String
  file : Option OutFile
  error : Option String
deriving DecidableEq

/-- The external steps the routine can perform, in the order the source
awaits them, used to observe which externals a run actually invoked. -/
inductive ConvStep where
  | loadLib
  | readBuffer
  | parseDoc
  | getPage
  | render
  | encode
deriving DecidableEq

/-- Oracle for one invocation: whether window and document exist, and the
outcome each external suspension point would produce if reached.  toBlob is
the canvas encoding callback argument: none models a null blob, some b an
encoded blob identified by b. -/
structure ConvEnv where
  hasWindow : Bool
  hasDocument : Bool
  loadLib : Except CaughtValue Unit
  readBuffer : Except CaughtValue Unit
  parseDoc : Except CaughtValue Unit
  getPage : Except CaughtValue Unit
  contextOk : Bool
  render : Except CaughtValue Unit
  toBlob : Option Nat

/-- The browser-context condition of the first validation rule. -/
def browserAvailable (env : ConvEnv) : Bool :=
  env.hasWindow && env.hasDocument

/-- The format rule: file.type.includes('pdf') or the lower-cased name ends
in ".pdf"; the rule fails only when both tests fail. -/
def formatRulePasses (f : JsFile) : Bool :=
  jsIncludes f.type "pdf" || endsWithPdf f.name

/-- The 50 MB size limit of the third validation rule. -/
def maxSize : Nat := 50 * 1024 * 1024

/-- The name rewriting of the success path: file.name.replace with the
case-insensitive anchored pattern dot-p-d-f, dropping a trailing ".pdf". -/
def stripPdfExt (name : String) : String :=
  if endsWithPdf name then String.mk (name.data.take (name.data.length - 4))
  else name

/-- The URL.createObjectURL locator for the encoded blob b. -/
def objectUrl (b : Nat) : String :=
  "blob:" ++ toString b

/-- The body of the try block after validation: each await either succeeds
or throws the oracle's caught value, the missing 2D context throws an Error,
and a null blob resolves the promise with an explicit error result.  The
second component lists the external steps that ran. -/
def runPipeline (env : ConvEnv) (f : JsFile) :
    Except CaughtValue PdfConversionResult × List ConvStep :=
  match env.loadLib with
  | Except.error e => (Except.error e, [ConvStep.loadLib])
  | Except.ok _ =>
    match env.readBuffer with
    | Except.error e => (Except.error e, [ConvStep.loadLib, ConvStep.readBuffer])
    | Except.ok _ =>
      match env.parseDoc with
      | Except.error e =>
        (Except.error e, [ConvStep.loadLib, ConvStep.readBuffer, ConvStep.parseDoc])
      | Except.ok _ =>
        match env.getPage with
        | Except.error e =>
          (Except.error e,
           [ConvStep.loadLib, ConvStep.readBuffer, ConvStep.parseDoc, ConvStep.getPage])
        | Except.ok _ =>
          if env.contextOk then
            match env.render with
            | Except.error e =>
              (Except.error e,
               [ConvStep.loadLib, ConvStep.readBuffer, ConvStep.parseDoc,
                ConvStep.getPage, ConvStep.render])
            | Except.ok _ =>
              match env.toBlob with
              | none =>
                (Except.ok ⟨"", none, some "Failed to create image blob from PDF"⟩,
                 [ConvStep.loadLib, ConvStep.readBuffer, ConvStep.parseDoc,
                  ConvStep.getPage, ConvStep.render, ConvStep.encode])
              | some b =>
                (Except.ok ⟨objectUrl b,
                    some ⟨stripPdfExt f.name ++ ".png", "image/png"⟩, none⟩,
                 [ConvStep.loadLib, ConvStep.readBuffer, ConvStep.parseDoc,
                  ConvStep.getPage, ConvStep.render, ConvStep.encode])
          else
            (Except.error (CaughtValue.errObj "Could not get 2D canvas context"),
             [ConvStep.loadLib, ConvStep.readBuffer, ConvStep.parseDoc,
              ConvStep.getPage])

/-- The whole routine with its trace of external steps: the three validation
rules in source order, then the try block with the catch-and-classify
recovery. -/
def convertPdfToImageT (env : ConvEnv) (f : JsFile) :
    PdfConversionResult × List ConvStep :=
  if !(browserAvailable env) then
    (⟨"", none, some "PDF conversion only works in the browser."⟩, [])
  else if !(formatRulePasses f) then
    (⟨"", none, some "File must be a PDF document."⟩, [])
  else if f.size > maxSize then
    (⟨"", none, some "PDF file is too large. Maximum size is 50MB."⟩, [])
  else
    ((match (runPipeline env f).1 with
      | Except.ok r => r
      | Except.error e => ⟨"", none, some (classifyMessage (messageOf e))⟩),
     (runPipeline env f).2)

/-- The result value the caller receives. -/
def convertPdfToImage (env : ConvEnv) (f : JsFile) : PdfConversionResult :=
  (convertPdfToImageT env f).1

/-- Every trace of pipeline steps begins with the library load: reaching the
try block always invokes loadPdfJs first. -/
lemma runPipeline_trace_head (env : ConvEnv) (f : JsFile) :
    ((runPipeline env f).2).head? = some ConvStep.loadLib := by
  obtain ⟨hw, hd, ll, rb, pd, gp, co, rd, tb⟩ := env
  cases ll <;> cases rb <;> cases pd <;> cases gp <;> cases co <;> cases rd
    <;> cases tb <;> rfl

/-- The pipeline either throws a caught value or resolves with one of the
two result shapes of the toBlob callback. -/
lemma runPipeline_fst_cases (env : ConvEnv) (f : JsFile) :
    (∃ e, (runPipeline env f).1 = Except.error e)
    ∨ (∃ r, (runPipeline env f).1 = Except.ok r ∧
        (((∃ o, r.file = some o) ∧ r.error = none)
          ∨ (r.file = none
              ∧ r.error = some "Failed to create image blob from PDF"))) := by
  obtain ⟨hw, hd, ll, rb, pd, gp, co, rd, tb⟩ := env
  cases ll with
  | error e => exact Or.inl ⟨e, rfl⟩
  | ok u1 =>
    cases rb with
    | error e => exact Or.inl ⟨e, rfl⟩
    | ok u2 =>
      cases pd with
      | error e => exact Or.inl ⟨e, rfl⟩
      | ok u3 =>
        cases gp with
        | error e => exact Or.inl ⟨e, rfl⟩
        | ok u4 =>
          cases co with
          | false => exact Or.inl ⟨_, rfl⟩
          | true =>
            cases rd with
            | error e => exact Or.inl ⟨e, rfl⟩
            | ok u5 =>
              cases tb with
              | none => exact Or.inr ⟨_, rfl, Or.inr ⟨rfl, rfl⟩⟩
              | some b => exact Or.inr ⟨_, rfl, Or.inl ⟨⟨_, rfl⟩, rfl⟩⟩

/-- The classifier returns the empty string only for the empty message: all
three matched categories are non-empty literals and the fall-through returns
the message itself. -/
lemma classifyMessage_empty (msg : String) (h : classifyMessage msg = "") :
    msg = "" := by
  unfold classifyMessage at h
  split at h
  · exact absurd h (by decide)
  · split at h
    · exact absurd h (by decide)
    · split at h
      · exact absurd h (by decide)
      · exact h

/-- C2: the three validation rules are checked in source order, the first
failure yields its rule's error result with no external step performed, and
when all three pass the routine proceeds to the conversion pipeline, whose
first external step is the library load. -/
theorem convert_validation_order :
    (∀ (env : ConvEnv) (f : JsFile), browserAvailable env = false →
      convertPdfToImageT env f
        = (⟨"", none, some "PDF conversion only works in the browser."⟩, []))
    ∧ (∀ (env : ConvEnv) (f : JsFile), browserAvailable env = true →
        formatRulePasses f = false →
        convertPdfToImageT env f
          = (⟨"", none, some "File must be a PDF document."⟩, []))
    ∧ (∀ (env : ConvEnv) (f : JsFile), browserAvailable env = true →
        formatRulePasses f = true → f.size > maxSize →
        convertPdfToImageT env f
          = (⟨"", none, some "PDF file is too large. Maximum size is 50MB."⟩, []))
    ∧ (∀ (env : ConvEnv) (f : JsFile), browserAvailable env = true →
        formatRulePasses f = true → f.size ≤ maxSize →
        (convertPdfToImageT env f).2 = (runPipeline env f).2
        ∧ ((convertPdfToImageT env f).2).head? = some ConvStep.loadLib) := by
  refine ⟨?_, ?_, ?_, ?_⟩
  · intro env f h
    simp [convertPdfToImageT, h]
  · intro env f h1 h2
    simp [convertPdfToImageT, h1, h2]
  · intro env f h1 h2 h3
    simp [convertPdfToImageT, h1, h2, h3]
  · intro env f h1 h2 h3
    have hns : ¬ (f.size > maxSize) := by omega
    refine ⟨?_, ?_⟩
    · simp [convertPdfToImageT, h1, h2, hns]
    · simp [convertPdfToImageT, h1, h2, hns, runPipeline_trace_head]

/-- C6 counterexample: an input over the 50 MB bound whose type and name
carry no PDF indicator is rejected by the earlier format rule, so its result
is the format error and not the size-limit error. -/
theorem oversize_not_size_error_cex :
    52428801 > maxSize
    ∧ (convertPdfToImage ⟨true, true, Except.ok (), Except.ok (), Except.ok (),
          Except.ok (), true, Except.ok (), some 0⟩
        ⟨"big.txt", "text/plain", 52428801⟩).error
        = some "File must be a PDF document." := by
  decide

/-- C6 (amended): for any input that passes the browser and format rules and
whose byte size exceeds 50 times 1024 times 1024, the routine returns the
size-limit error result, whatever the rest of the environment holds. -/
theorem oversize_size_error (env : ConvEnv) (f : JsFile)
    (hb : browserAvailable env = true) (hf : formatRulePasses f = true)
    (hs : f.size > maxSize) :
    convertPdfToImage env f
      = ⟨"", none, some "PDF file is too large. Maximum size is 50MB."⟩ := by
  simp [convertPdfToImage, convertPdfToImageT, hb, hf, hs]

/-- Witness for the amended C6 at a concrete oversized PDF input. -/
theorem oversize_size_error_witness :
    convertPdfToImage ⟨true, true, Except.ok (), Except.ok (), Except.ok (),
        Except.ok (), true, Except.ok (), some 0⟩
      ⟨"big.pdf", "application/pdf", 52428801⟩
      = ⟨"", none, some "PDF file is too large. Maximum size is 50MB."⟩ :=
  oversize_size_error _ _ (by decide) (by decide) (by decide)

/-- C9: the media-type test of the format rule is a case-sensitive substring
check for "pdf": the type "text/pdfish" passes it and "application/PDF" does
not; any file whose declared type contains lowercase "pdf" passes the format
rule regardless of its name, while in a browser context a file without that
substring in its type and without a case-insensitive ".pdf" name suffix is
rejected with the format error before any external step. -/
theorem format_rule_case_sensitive :
    jsIncludes "text/pdfish" "pdf" = true
    ∧ jsIncludes "application/PDF" "pdf" = false
    ∧ (∀ f : JsFile, jsIncludes f.type "pdf" = true → formatRulePasses f = true)
    ∧ (∀ (env : ConvEnv) (f : JsFile), browserAvailable env = true →
        jsIncludes f.type "pdf" = false → endsWithPdf f.name = false →
        convertPdfToImageT env f
          = (⟨"", none, some "File must be a PDF document."⟩, [])) := by
  refine ⟨by decide, by decide, ?_, ?_⟩
  · intro f h
    simp [formatRulePasses, h]
  · intro env f hb h1 h2
    have hf : formatRulePasses f = false := by simp [formatRulePasses, h1, h2]
    simp [convertPdfToImageT, hb, hf]

/-- C5: the classifier maps a caught message by substring match in the fixed
precedence Invalid PDF, then password, then worker, and otherwise passes the
raw message through; and every error the pipeline throws surfaces in the
result as the classified message. -/
theorem error_classifier_precedence :
    (∀ msg : String, jsIncludes msg "Invalid PDF" = true →
      classifyMessage msg
        = "The uploaded file appears to be corrupted or is not a valid PDF.")
    ∧ (∀ msg : String, jsIncludes msg "Invalid PDF" = false →
        jsIncludes msg "password" = true →
        classifyMessage msg = "Password-protected PDFs are not supported.")
    ∧ (∀ msg : String, jsIncludes msg "Invalid PDF" = false →
        jsIncludes msg "password" = false → jsIncludes msg "worker" = true →
        classifyMessage msg
          = "PDF processing worker failed to load. Please try again.")
    ∧ (∀ msg : String, jsIncludes msg "Invalid PDF" = false →
        jsIncludes msg "password" = false → jsIncludes msg "worker" = false →
        classifyMessage msg = msg)
    ∧ (∀ (env : ConvEnv) (f : JsFile) (e : CaughtValue),
        browserAvailable env = true → formatRulePasses f = true →
        f.size ≤ maxSize → (runPipeline env f).1 = Except.error e →
        (convertPdfToImage env f).error
          = some (classifyMessage (messageOf e))) := by
  refine ⟨?_, ?_, ?_, ?_, ?_⟩
  · intro m h
    simp [classifyMessage, h]
  · intro m h1 h2
    simp [classifyMessage, h1, h2]
  · intro m h1 h2 h3
    simp [classifyMessage, h1, h2, h3]
  · intro m h1 h2 h3
    simp [classifyMessage, h1, h2, h3]
  · intro env f e hb hf hs herr
    have hns : ¬ (f.size > maxSize) := by omega
    simp [convertPdfToImage, convertPdfToImageT, hb, hf, hns, herr]

/-- C8 counterexample: a parse failure message that contains "password" but
also contains "Invalid PDF" is captured by the earlier Invalid PDF branch,
so the password text is not returned for it. -/
theorem password_shadowed_cex :
    jsIncludes "Invalid PDF: password required" "password" = true
    ∧ (convertPdfToImage ⟨true, true, Except.ok (), Except.ok (),
          Except.error (CaughtValue.errObj "Invalid PDF: password required"),
          Except.ok (), true, Except.ok (), some 0⟩
        ⟨"a.pdf", "application/pdf", 10⟩).error
        = some "The uploaded file appears to be corrupted or is not a valid PDF." := by
  decide

/-- C8 (amended): a document reaching the parse step whose parse failure
message contains the substring "password" and not the substring
"Invalid PDF" yields the literal password-protected error text. -/
theorem password_error_literal (env : ConvEnv) (f : JsFile) (e : CaughtValue)
    (hb : browserAvailable env = true) (hf : formatRulePasses f = true)
    (hs : f.size ≤ maxSize) (hload : env.loadLib = Except.ok ())
    (hread : env.readBuffer = Except.ok ())
    (hparse : env.parseDoc = Except.error e)
    (hpw : jsIncludes (messageOf e) "password" = true)
    (hinv : jsIncludes (messageOf e) "Invalid PDF" = false) :
    (convertPdfToImage env f).error
      = some "Password-protected PDFs are not supported." := by
  have hns : ¬ (f.size > maxSize) := by omega
  simp [convertPdfToImage, convertPdfToImageT, hb, hf, hns, runPipeline,
    hload, hread, hparse, classifyMessage, hpw, hinv]

/-- Witness for the amended C8 at a concrete password failure. -/
theorem password_error_literal_witness :
    (convertPdfToImage ⟨true, true, Except.ok (), Except.ok (),
        Except.error (CaughtValue.errObj "No password given"),
        Except.ok (), true, Except.ok (), some 0⟩
      ⟨"a.pdf", "application/pdf", 10⟩).error
      = some "Password-protected PDFs are not supported." :=
  password_error_literal _ _ _ (by decide) (by decide) (by decide) rfl rfl rfl
    (by decide) (by decide)

/-- C7: for a validated input whose rendering and encoding all succeed, the
result has no error, carries a PNG file whose name is the input name with a
trailing case-insensitive ".pdf" replaced by ".png", and a locator bound to
the encoded blob. -/
theorem successful_conversion_packaging (env : ConvEnv) (f : JsFile) (b : Nat)
    (hb : browserAvailable env = true) (hn : endsWithPdf f.name = true)
    (hs : f.size ≤ maxSize) (h1 : env.loadLib = Except.ok ())
    (h2 : env.readBuffer = Except.ok ()) (h3 : env.parseDoc = Except.ok ())
    (h4 : env.getPage = Except.ok ()) (h5 : env.contextOk = true)
    (h6 : env.render = Except.ok ()) (h7 : env.toBlob = some b) :
    convertPdfToImage env f
      = ⟨objectUrl b,
         some ⟨String.mk (f.name.data.take (f.name.data.length - 4)) ++ ".png",
               "image/png"⟩, none⟩ := by
  have hf : formatRulePasses f = true := by simp [formatRulePasses, hn]
  have hns : ¬ (f.size > maxSize) := by omega
  simp [convertPdfToImage, convertPdfToImageT, hb, hf, hns, runPipeline,
    h1, h2, h3, h4, h5, h6, h7, stripPdfExt, hn]

/-- Witness for C7 at the spec's example input Resume.PDF: the output file
is Resume.png of type image/png with the blob locator. -/
theorem successful_conversion_packaging_witness :
    convertPdfToImage ⟨true, true, Except.ok (), Except.ok (), Except.ok (),
        Except.ok (), true, Except.ok (), some 7⟩
      ⟨"Resume.PDF", "application/pdf", 1000⟩
      = ⟨"blob:7", some ⟨"Resume.png", "image/png"⟩, none⟩ := by
  have h := successful_conversion_packaging
    ⟨true, true, Except.ok (), Except.ok (), Except.ok (), Except.ok (), true,
      Except.ok (), some 7⟩
    ⟨"Resume.PDF", "application/pdf", 1000⟩ 7
    (by decide) (by decide) (by decide) rfl rfl rfl rfl rfl rfl rfl
  rw [h]
  decide

/-- C1 counterexample: when the caught error of a failed conversion carries
the empty message, the failure result's error string is the empty string,
not a non-empty one. -/
theorem convert_empty_error_cex :
    (convertPdfToImage ⟨true, true, Except.error (CaughtValue.errObj ""),
        Except.ok (), Except.ok (), Except.ok (), true, Except.ok (), some 0⟩
      ⟨"a.pdf", "application/pdf", 10⟩).file = none
    ∧ (convertPdfToImage ⟨true, true, Except.error (CaughtValue.errObj ""),
        Except.ok (), Except.ok (), Except.ok (), true, Except.ok (), some 0⟩
      ⟨"a.pdf", "application/pdf", 10⟩).error = some "" := by
  decide

/-- C1 (amended): every invocation returns a plain result value in which
exactly one of a non-null file and a present error field holds; the error
string is non-empty except when the pipeline threw a value whose extracted
message is the empty string, which the classifier passes through. -/
theorem convert_result_exclusive (env : ConvEnv) (f : JsFile) :
    ((∃ o, (convertPdfToImage env f).file = some o)
      ∧ (convertPdfToImage env f).error = none)
    ∨ ((convertPdfToImage env f).file = none
      ∧ ∃ m, (convertPdfToImage env f).error = some m
        ∧ (m = "" → ∃ e, (runPipeline env f).1 = Except.error e
            ∧ messageOf e = "")) := by
  by_cases hb : browserAvailable env = true
  · by_cases hf : formatRulePasses f = true
    · by_cases hsz : f.size > maxSize
      · have hr : convertPdfToImage env f
            = ⟨"", none, some "PDF file is too large. Maximum size is 50MB."⟩ := by
          simp [convertPdfToImage, convertPdfToImageT, hb, hf, hsz]
        rw [hr]
        exact Or.inr ⟨rfl, _, rfl, fun h => absurd h (by decide)⟩
      · rcases runPipeline_fst_cases env f with ⟨e, herr⟩ | ⟨r, hok, hshape⟩
        · have hr : convertPdfToImage env f
              = ⟨"", none, some (classifyMessage (messageOf e))⟩ := by
            simp [convertPdfToImage, convertPdfToImageT, hb, hf, hsz, herr]
          rw [hr]
          refine Or.inr ⟨rfl, _, rfl, fun h => ⟨e, herr, ?_⟩⟩
          exact classifyMessage_empty _ h
        · have hr : convertPdfToImage env f = r := by
            simp [convertPdfToImage, convertPdfToImageT, hb, hf, hsz, hok]
          rw [hr]
          rcases hshape with ⟨⟨o, ho⟩, he⟩ | ⟨ho, he⟩
          · exact Or.inl ⟨⟨o, ho⟩, he⟩
          · exact Or.inr ⟨ho, _, he, fun h => absurd h (by decide)⟩
    · have hf' : formatRulePasses f = false := by
        cases h : formatRulePasses f
        · rfl
        · exact absurd h hf
      have hr : convertPdfToImage env f
          = ⟨"", none, some "File must be a PDF document."⟩ := by
        simp [convertPdfToImage, convertPdfToImageT, hb, hf']
      rw [hr]
      exact Or.inr ⟨rfl, _, rfl, fun h => absurd h (by decide)⟩
  · have hb' : browserAvailable env = false := by
      cases h : browserAvailable env
      · rfl
      · exact absurd h hb
    have hr : convertPdfToImage env f
        = ⟨"", none, some "PDF conversion only works in the browser."⟩ := by
      simp [convertPdfToImage, convertPdfToImageT, hb']
    rw [hr]
    exact Or.inr ⟨rfl, _, rfl, fun h => absurd h (by decide)⟩

/-! ## The file-upload component (FileUploader.tsx) -/

/-- The 20 MB bound maxFileSize of FileUploader.tsx. -/
def maxFileSize : Nat := 20 * 1024 * 1024

/-- Models the dropzone library's per-file acceptance test under the
component's options: accept maps application/pdf to the .pdf extension and
maxSize is maxFileSize, so a file is accepted when its declared type is
application/pdf or its name ends in .pdf, and its byte size is within the
bound. -/
def dropzoneFileOk (f : JsFile) : Bool :=
  (f.type == "application/pdf" || endsWithPdf f.name)
    && decide (f.size ≤ maxFileSize)

/-- Models the dropzone library under multiple false: a drop of more than
one file is rejected whole, otherwise the accepted files are those passing
the per-file test. -/
def dropzoneAcceptedFiles (dropped : List JsFile) : List JsFile :=
  if dropped.length > 1 then [] else dropped.filter dropzoneFileOk

/-- The onDrop handler of FileUploader: acceptedFiles[0] || null becomes the
selected file. -/
def uploaderOnDrop (dropped : List JsFile) : Option JsFile :=
  (dropzoneAcceptedFiles dropped).head?

/-- The condition guarding the size-limit branch of convertPdfToImage, read
off the path to it: browser context and format rule passed and the size
exceeds the 50 MB limit. -/
def sizeRuleFires (env : ConvEnv) (f : JsFile) : Bool :=
  browserAvailable env && formatRulePasses f && decide (f.size > maxSize)

/-- Every file the uploader selects respects the 20 MB bound. -/
lemma uploaderOnDrop_size_le (dropped : List JsFile) (f : JsFile)
    (h : uploaderOnDrop dropped = some f) : f.size ≤ maxFileSize := by
  unfold uploaderOnDrop at h
  have hok : dropzoneFileOk f = true := by
    cases hacc : dropzoneAcceptedFiles dropped with
    | nil => rw [hacc] at h; simp at h
    | cons a t =>
      rw [hacc] at h
      simp at h
      subst h
      have hmem : a ∈ dropzoneAcceptedFiles dropped := by
        rw [hacc]; exact List.mem_cons_self a t
      unfold dropzoneAcceptedFiles at hmem
      by_cases hl : dropped.length > 1
      · rw [if_pos hl] at hmem; simp at hmem
      · rw [if_neg hl] at hmem
        exact (List.mem_filter.mp hmem).2
  have := (by simpa [dropzoneFileOk] using hok :
    (f.type = "application/pdf" ∨ endsWithPdf f.name = true)
      ∧ f.size ≤ maxFileSize)
  exact this.2

/-- C10: a drop admits at most one file and only files of size at most
20 times 1024 times 1024 bytes, strictly below the converter's 50 MB bound,
so the size-limit branch of convertPdfToImage cannot fire on any file the
uploader admits. -/
theorem uploader_below_converter_limit :
    (∀ dropped : List JsFile, (dropzoneAcceptedFiles dropped).length ≤ 1)
    ∧ maxFileSize < maxSize
    ∧ (∀ (dropped : List JsFile) (f : JsFile),
        uploaderOnDrop dropped = some f → f.size ≤ maxFileSize)
    ∧ (∀ (dropped : List JsFile) (f : JsFile) (env : ConvEnv),
        uploaderOnDrop dropped = some f → sizeRuleFires env f = false) := by
  refine ⟨?_, by decide, fun d f h => uploaderOnDrop_size_le d f h, ?_⟩
  · intro dropped
    unfold dropzoneAcceptedFiles
    by_cases hl : dropped.length > 1
    · rw [if_pos hl]; simp
    · rw [if_neg hl]
      exact le_trans (List.length_filter_le _ _) (by omega)
  · intro dropped f env h
    have hle : f.size ≤ maxFileSize := uploaderOnDrop_size_le dropped f h
    have hnc : ¬ (f.size > maxSize) := by
      simp only [maxFileSize] at hle
      simp only [maxSize]
      omega
    simp [sizeRuleFires, hnc]

end ResuMate
